import Mathlib

/-!
Verification of the turn-based fighting game engine (the `Game` class of
`gitattributes.py`). The embedding below mirrors the data model and the
operations of the source: character records, the per-character cooldown
dict, the active-defense flags, move resolution (`apply_move`), cooldown
advancement (`reduce_cooldowns`), turn taking (`take_turn`) and the main
battle loop of `play` with its final winner report via `__lt__`.
-/

namespace Fight

/-- Effect string for a block move, as it appears in the character data. -/
def blockEffect : String := "blocks next attack"

/-- Effect string for a dodge move, as it appears in the character data. -/
def dodgeEffect : String := "dodge next attack"

/-- One move record. In the source each move is a dict whose first key is
the move name; `damage` is read with `move["damage"]`, the cooldown with
`move.get("cooldown", 0)` and the effect with `move.get("effect")`, so
the last two fields are optional. -/
structure Move where
  name : String
  damage : Int
  cooldown : Option Int
  effect : Option String
deriving DecidableEq, Repr

/-- Configured cooldown of a move: `move.get("cooldown", 0)`, default 0
when the data has no cooldown entry. -/
def Move.cooldownVal (m : Move) : Int :=
  m.cooldown.getD 0

/-- Whether a move carries a block or dodge effect, the membership test
`move.get("effect") in ["blocks next attack", "dodge next attack"]` of
the source (a missing effect, `none`, is in neither). -/
def Move.isDefense (m : Move) : Prop :=
  m.effect = some blockEffect ∨ m.effect = some dodgeEffect

instance (m : Move) : Decidable m.isDefense := by
  unfold Move.isDefense; infer_instance

/-- One character record from the JSON data: name, health, defense and
the ordered move list `player_moves`. Health is an integer that the
source never clamps, so it may go negative on the lethal blow. -/
structure Character where
  name : String
  health : Int
  defense : Int
  player_moves : List Move
deriving DecidableEq, Repr

/-- Key set of the cooldown dict of one character: its move names. -/
def Character.moveNames (c : Character) : List String :=
  c.player_moves.map Move.name

/-- The two combatants of one battle. -/
inductive Side where
  | player
  | cpu
deriving DecidableEq, Repr

/-- The opposite combatant. -/
def Side.other : Side → Side
  | .player => .cpu
  | .cpu => .player

/-- Game state: the two character records, the cooldown table
`self.cooldowns` (a dict keyed by character name and then move name,
modelled as a total function since the source only reads keys it has
initialized) and the defense flags `self.active_defenses`, keyed by
character name. -/
structure GameState where
  player : Character
  cpu : Character
  cooldowns : String → String → Int
  active_defenses : String → Bool

/-- Character record of a side. -/
def GameState.char (s : GameState) : Side → Character
  | .player => s.player
  | .cpu => s.cpu

/-- Replace the character record of a side. -/
def GameState.setChar (s : GameState) : Side → Character → GameState
  | .player, c => { s with player := c }
  | .cpu, c => { s with cpu := c }

/-- Pointwise write of one entry of the two-level cooldown dict. -/
def writeCd (f : String → String → Int) (c m : String) (v : Int) :
    String → String → Int :=
  fun x y => if x = c ∧ y = m then v else f x y

/-- Pointwise write of one defense flag. -/
def writeFlag (f : String → Bool) (c : String) (v : Bool) :
    String → Bool :=
  fun x => if x = c then v else f x

/-- The move resolution of `Game.apply_move`. Returns `none` when the
move index is out of range (there the Python code would raise an
`IndexError`; every caller in the source passes an in-range index), and
otherwise `some` of the successor state together with the boolean the
source returns. The four branches in source order: cooldown gate,
nullification by an active defense of the defender, activation of a
block/dodge effect, and the plain attack with
`damage = max(move.damage - defender.defense, 0)`. -/
def apply_move (s : GameState) (atk : Side) (move_key : Nat) :
    Option (GameState × Bool) :=
  let attacker := s.char atk
  let defender := s.char atk.other
  match (attacker.player_moves)[move_key]? with
  | none => none
  | some move =>
    if s.cooldowns attacker.name move.name > 0 then
      some (s, false)
    else if s.active_defenses defender.name then
      some ({ s with
        active_defenses := writeFlag s.active_defenses defender.name false,
        cooldowns :=
          writeCd s.cooldowns attacker.name move.name move.cooldownVal },
        true)
    else if move.isDefense then
      some ({ s with
        active_defenses := writeFlag s.active_defenses attacker.name true,
        cooldowns :=
          writeCd s.cooldowns attacker.name move.name move.cooldownVal },
        true)
    else
      let damage := max (move.damage - defender.defense) 0
      let s1 := s.setChar atk.other
        { defender with health := defender.health - damage }
      some ({ s1 with
        cooldowns :=
          writeCd s1.cooldowns attacker.name move.name move.cooldownVal },
        true)

/-- The part of `Game.reduce_cooldowns` that handles one character: every
key of that dict (a move name of the character) whose value is positive
is decremented by one; each dict key is visited exactly once. -/
def reduceFor (c : Character) (f : String → String → Int) :
    String → String → Int :=
  fun x y =>
    if x = c.name ∧ y ∈ c.moveNames ∧ f x y > 0 then f x y - 1 else f x y

/-- `Game.reduce_cooldowns`: the dict of the player is processed first,
then the dict of the CPU, as in the source loop over `[player, cpu]`. -/
def reduce_cooldowns (s : GameState) : GameState :=
  { s with cooldowns := reduceFor s.cpu (reduceFor s.player s.cooldowns) }

/-- `Game.reset_cooldowns`: every cooldown entry becomes 0 and every
defense flag becomes false. -/
def reset_cooldowns (s : GameState) : GameState :=
  { s with cooldowns := fun _ _ => 0, active_defenses := fun _ => false }

/-- `Game.take_turn` after move selection: it calls `apply_move` and
discards the returned boolean, keeping whatever state resulted. For an
out-of-range index (never produced by the selection code of the source)
the state is left unchanged. -/
def take_turn (s : GameState) (atk : Side) (idx : Nat) : GameState :=
  match apply_move s atk idx with
  | some (s1, _) => s1
  | none => s

/-- Model of the CPU move selection
`random.choice(range(len(attacker["player_moves"])))`: the pseudo-random
source is an oracle value `r` and the chosen index is `r` modulo the
move count. The selection reads nothing but the length of the move list;
in particular it applies no cooldown filtering. -/
def cpuSelect (c : Character) (r : Nat) : Nat :=
  r % c.player_moves.length

/-- Loop state of `Game.play`: the game state plus the parity variable
`turn` (0 = player to move, 1 = CPU to move). -/
structure LoopState where
  gs : GameState
  turn : Nat

/-- Loop condition of the `while` in `Game.play`. -/
def battleLive (ls : LoopState) : Bool :=
  decide (ls.gs.player.health > 0) && decide (ls.gs.cpu.health > 0)

/-- One iteration of the `while` body in `Game.play`: the side given by
the parity takes its turn (the player consuming its next validated
console choice `pch k`, the CPU consuming its next random oracle value
`cch k`), then `reduce_cooldowns` runs and the parity flips via
`turn = 1 - turn`. -/
def playStep (pch cch : Nat → Nat) (k : Nat) (ls : LoopState) : LoopState :=
  let s1 :=
    if ls.turn = 0 then take_turn ls.gs Side.player (pch k)
    else take_turn ls.gs Side.cpu (cpuSelect ls.gs.cpu (cch k))
  { gs := reduce_cooldowns s1, turn := 1 - ls.turn }

/-- The `while` loop of `Game.play`, with fuel so that the embedding is
total. Returns the final loop state and the number of iterations
(half-turns) actually executed; the loop condition is re-evaluated
before every iteration, exactly as the Python `while` does. -/
def playLoop (pch cch : Nat → Nat) : Nat → Nat → LoopState → LoopState × Nat
  | 0, _, ls => (ls, 0)
  | fuel + 1, k, ls =>
    if battleLive ls then
      let r := playLoop pch cch fuel (k + 1) (playStep pch cch k ls)
      (r.1, r.2 + 1)
    else (ls, 0)

/-- `Game.__lt__`: compares the health of the player with the health of
the CPU. The `other` argument is ignored by the source body (the call
site passes `self.cpu` for it). -/
def game_lt (s : GameState) (other : Character) : Bool :=
  decide (s.player.health < s.cpu.health)

/-- The winner report at the end of `Game.play`: the losing message for
the player is printed iff `self < self.cpu` holds. -/
def playerLostReport (s : GameState) : Bool :=
  game_lt s s.cpu

/-- `Game.play` after character selection: reset the cooldowns and the
flags, run the loop starting with the player to move, and report the
outcome. Returns the final loop state, the number of executed
half-turns, and whether the player was reported as the loser. -/
def play (pch cch : Nat → Nat) (fuel : Nat) (s : GameState) :
    LoopState × Nat × Bool :=
  let r := playLoop pch cch fuel 0 { gs := reset_cooldowns s, turn := 0 }
  (r.1, r.2, playerLostReport r.1.gs)

/-- Successor state of the plain-attack branch of `apply_move`, named so
that the branch equation below stays readable: the defender loses
`max(move.damage - defender.defense, 0)` health and the cooldown entry
of the attacker for this move becomes the configured value. -/
def attackResult (s : GameState) (atk : Side) (m : Move) : GameState :=
  let defender := s.char atk.other
  let s1 := s.setChar atk.other
    { defender with
      health := defender.health - max (m.damage - defender.defense) 0 }
  { s1 with
    cooldowns := writeCd s.cooldowns (s.char atk).name m.name m.cooldownVal }

/-- Punch of the spec scenario: damage 8, cooldown 0, no effect. -/
def punchMove : Move :=
  { name := "Punch", damage := 8, cooldown := some 0, effect := none }

/-- A weak plain move for the CPU side of the scenarios. -/
def pokeMove : Move :=
  { name := "Poke", damage := 1, cooldown := some 0, effect := none }

/-- Character A of the spec scenario: health 20, defense 2, one Punch. -/
def charA : Character :=
  { name := "A", health := 20, defense := 2, player_moves := [punchMove] }

/-- Character B of the spec scenario: health 20, defense 3. -/
def charB : Character :=
  { name := "B", health := 20, defense := 3, player_moves := [pokeMove] }

/-- Battle state of the spec scenario, with zeroed cooldowns and cleared
defense flags. -/
def sAB : GameState :=
  { player := charA, cpu := charB,
    cooldowns := fun _ _ => 0, active_defenses := fun _ => false }

/-- Variant of the scenario state in which the Punch of A has remaining
cooldown 1. -/
def sCd : GameState :=
  { player := charA, cpu := charB,
    cooldowns := writeCd (fun _ _ => 0) charA.name punchMove.name 1,
    active_defenses := fun _ => false }

/-- Dodge move used by the defensive scenarios: effect "dodge next
attack", damage field unused there, configured cooldown 2. -/
def dodgeMove : Move :=
  { name := "Shadow", damage := 0, cooldown := some 2,
    effect := some dodgeEffect }

/-- Character D: owner of the dodge move in the scenarios. -/
def charD : Character :=
  { name := "D", health := 20, defense := 2, player_moves := [dodgeMove] }

/-- State in which D is about to use the dodge move against B. -/
def sDodge : GameState :=
  { player := charD, cpu := charB,
    cooldowns := fun _ _ => 0, active_defenses := fun _ => false }

/-- State in which D already has an active defense and B attacks. -/
def sFlag : GameState :=
  { player := charD, cpu := charB,
    cooldowns := fun _ _ => 0,
    active_defenses := writeFlag (fun _ => false) charD.name true }

/-- Tied battle state used by the C10 witness. -/
def sTie : GameState :=
  { player := { charA with health := 7 }, cpu := { charB with health := 7 },
    cooldowns := fun _ _ => 0, active_defenses := fun _ => false }

/-- Heavy finisher used by the mid-pair exit counterexample. -/
def smashMove : Move :=
  { name := "Smash", damage := 100, cooldown := some 0, effect := none }

/-- Player of the mid-pair exit counterexample. -/
def charP6 : Character :=
  { name := "P", health := 20, defense := 0, player_moves := [smashMove] }

/-- CPU of the mid-pair exit counterexample, with little health. -/
def charC6 : Character :=
  { name := "C", health := 5, defense := 0, player_moves := [pokeMove] }

/-- Initial state of the mid-pair exit counterexample. -/
def s6 : GameState :=
  { player := charP6, cpu := charC6,
    cooldowns := fun _ _ => 0, active_defenses := fun _ => false }

/-- A finished loop state in the middle of a pair (parity 1, player
health 0), used by the C6 witness. -/
def gsDead : GameState :=
  { player := { charA with health := 0 }, cpu := charB,
    cooldowns := fun _ _ => 0, active_defenses := fun _ => false }

/-- The dead state with parity 1: the CPU half of the pair is pending. -/
def lsDead : LoopState :=
  { gs := gsDead, turn := 1 }

/-- Character A7 of the dodge scenario: owns the dodge with cooldown 2. -/
def charA7 : Character :=
  { name := "A7", health := 20, defense := 2, player_moves := [dodgeMove] }

/-- Character B7 of the dodge scenario: attacks with the Punch. -/
def charB7 : Character :=
  { name := "B7", health := 20, defense := 3, player_moves := [punchMove] }

/-- Initial state of the dodge scenario. -/
def s7 : GameState :=
  { player := charA7, cpu := charB7,
    cooldowns := fun _ _ => 0, active_defenses := fun _ => false }

/-- State after the dodge turn of A7, exactly as the loop computes it. -/
def s7a : GameState := take_turn s7 Side.player 0

/-- State after the `reduce_cooldowns` call ending the dodge turn. -/
def s7b : GameState := reduce_cooldowns s7a

/-- State after the Punch of B7 on the following turn. -/
def s7c : GameState := take_turn s7b Side.cpu 0

/-- Well-formedness of the static move data of one character: configured
cooldowns are nonnegative turn counts. -/
def movesWF (c : Character) : Prop :=
  ∀ m ∈ c.player_moves, 0 ≤ m.cooldownVal

instance (c : Character) : Decidable (movesWF c) := by
  unfold movesWF; infer_instance

/-- Every entry of the cooldown table is nonnegative. -/
def cdNonneg (s : GameState) : Prop :=
  ∀ c m, 0 ≤ s.cooldowns c m

/-- State in which the only move of the CPU is on cooldown, for the C9
witness. -/
def sCpuCd : GameState :=
  { player := charA, cpu := charB,
    cooldowns := writeCd (fun _ _ => 0) charB.name pokeMove.name 2,
    active_defenses := fun _ => false }

/-! Helper lemmas: pointwise behaviour of the dict writes and the four
branch equations of `apply_move`. -/

theorem writeCd_self (f : String → String → Int) (c m : String) (v : Int) :
    writeCd f c m v c m = v := by
  simp [writeCd]

theorem writeCd_ne (f : String → String → Int) (c m x y : String) (v : Int)
    (h : ¬ (x = c ∧ y = m)) : writeCd f c m v x y = f x y := by
  simp only [writeCd, if_neg h]

theorem writeFlag_self (f : String → Bool) (c : String) (v : Bool) :
    writeFlag f c v c = v := by
  simp [writeFlag]

theorem writeFlag_ne (f : String → Bool) (c x : String) (v : Bool)
    (h : x ≠ c) : writeFlag f c v x = f x := by
  simp only [writeFlag, if_neg h]

theorem side_other_other (sd : Side) : sd.other.other = sd := by
  cases sd <;> rfl

theorem char_setChar_self (s : GameState) (sd : Side) (c : Character) :
    (s.setChar sd c).char sd = c := by
  cases sd <;> rfl

theorem char_setChar_other (s : GameState) (sd : Side) (c : Character) :
    (s.setChar sd c).char sd.other = s.char sd.other := by
  cases sd <;> rfl

theorem setChar_cooldowns (s : GameState) (sd : Side) (c : Character) :
    (s.setChar sd c).cooldowns = s.cooldowns := by
  cases sd <;> rfl

theorem setChar_active_defenses (s : GameState) (sd : Side) (c : Character) :
    (s.setChar sd c).active_defenses = s.active_defenses := by
  cases sd <;> rfl

theorem apply_move_eq_none (s : GameState) (atk : Side) (i : Nat)
    (hm : ((s.char atk).player_moves)[i]? = none) :
    apply_move s atk i = none := by
  simp only [apply_move, hm]

theorem apply_move_eq_refused (s : GameState) (atk : Side) (i : Nat)
    (m : Move) (hm : ((s.char atk).player_moves)[i]? = some m)
    (hcd : s.cooldowns (s.char atk).name m.name > 0) :
    apply_move s atk i = some (s, false) := by
  simp only [apply_move, hm]
  rw [if_pos hcd]

theorem apply_move_eq_nullify (s : GameState) (atk : Side) (i : Nat)
    (m : Move) (hm : ((s.char atk).player_moves)[i]? = some m)
    (hcd : ¬ s.cooldowns (s.char atk).name m.name > 0)
    (hdef : s.active_defenses (s.char atk.other).name = true) :
    apply_move s atk i = some ({ s with
      active_defenses :=
        writeFlag s.active_defenses (s.char atk.other).name false,
      cooldowns :=
        writeCd s.cooldowns (s.char atk).name m.name m.cooldownVal },
      true) := by
  simp only [apply_move, hm]
  rw [if_neg hcd, if_pos hdef]

theorem apply_move_eq_defense (s : GameState) (atk : Side) (i : Nat)
    (m : Move) (hm : ((s.char atk).player_moves)[i]? = some m)
    (hcd : ¬ s.cooldowns (s.char atk).name m.name > 0)
    (hdef : s.active_defenses (s.char atk.other).name = false)
    (heff : m.isDefense) :
    apply_move s atk i = some ({ s with
      active_defenses :=
        writeFlag s.active_defenses (s.char atk).name true,
      cooldowns :=
        writeCd s.cooldowns (s.char atk).name m.name m.cooldownVal },
      true) := by
  have hdef1 : ¬ (s.active_defenses (s.char atk.other).name = true) := by
    simp [hdef]
  simp only [apply_move, hm]
  rw [if_neg hcd, if_neg hdef1, if_pos heff]

theorem apply_move_eq_attack (s : GameState) (atk : Side) (i : Nat)
    (m : Move) (hm : ((s.char atk).player_moves)[i]? = some m)
    (hcd : ¬ s.cooldowns (s.char atk).name m.name > 0)
    (hdef : s.active_defenses (s.char atk.other).name = false)
    (heff : ¬ m.isDefense) :
    apply_move s atk i = some (attackResult s atk m, true) := by
  have hdef1 : ¬ (s.active_defenses (s.char atk.other).name = true) := by
    simp [hdef]
  simp only [apply_move, hm]
  rw [if_neg hcd, if_neg hdef1, if_neg heff]
  simp only [attackResult, setChar_cooldowns]

theorem take_turn_eq (s : GameState) (atk : Side) (i : Nat)
    (s1 : GameState) (b : Bool) (h : apply_move s atk i = some (s1, b)) :
    take_turn s atk i = s1 := by
  simp only [take_turn, h]

theorem attackResult_defender_health (s : GameState) (atk : Side) (m : Move) :
    ((attackResult s atk m).char atk.other).health =
      (s.char atk.other).health -
        max (m.damage - (s.char atk.other).defense) 0 := by
  cases atk <;> rfl

theorem attackResult_attacker (s : GameState) (atk : Side) (m : Move) :
    (attackResult s atk m).char atk = s.char atk := by
  cases atk <;> rfl

theorem attackResult_cooldowns (s : GameState) (atk : Side) (m : Move) :
    (attackResult s atk m).cooldowns =
      writeCd s.cooldowns (s.char atk).name m.name m.cooldownVal := rfl

theorem attackResult_flags (s : GameState) (atk : Side) (m : Move) :
    (attackResult s atk m).active_defenses = s.active_defenses := by
  cases atk <;> rfl

theorem attackResult_char_shape (s : GameState) (atk : Side) (m : Move)
    (sd : Side) :
    ((attackResult s atk m).char sd).name = (s.char sd).name ∧
    ((attackResult s atk m).char sd).player_moves =
      (s.char sd).player_moves ∧
    ((attackResult s atk m).char sd).defense = (s.char sd).defense := by
  cases atk <;> cases sd <;> exact ⟨rfl, rfl, rfl⟩

/-! Concrete data used by the witnesses, taken from the scenarios of the
spec. -/

/-- C1: a plain-attack execution (move off cooldown, defender without an
active defense, move without a block/dodge effect) applies exactly
`max(move.damage - defender.defense, 0)` damage, which is never
negative; the defender health drops by exactly that amount, the attacker
health and all defense flags are unchanged, and the cooldown entry of
the attacker for this move becomes the configured value (default 0 when
the data has none, via `cooldownVal`). -/
theorem apply_move_plain_attack_damage (s : GameState) (atk : Side) (i : Nat)
    (m : Move) (hm : ((s.char atk).player_moves)[i]? = some m)
    (hcd : ¬ s.cooldowns (s.char atk).name m.name > 0)
    (hdef : s.active_defenses (s.char atk.other).name = false)
    (heff : ¬ m.isDefense) :
    ∃ s1, apply_move s atk i = some (s1, true) ∧
      0 ≤ max (m.damage - (s.char atk.other).defense) 0 ∧
      (s1.char atk.other).health =
        (s.char atk.other).health -
          max (m.damage - (s.char atk.other).defense) 0 ∧
      s1.cooldowns (s.char atk).name m.name = m.cooldownVal ∧
      (s1.char atk).health = (s.char atk).health ∧
      s1.active_defenses = s.active_defenses := by
  refine ⟨attackResult s atk m,
    apply_move_eq_attack s atk i m hm hcd hdef heff,
    le_max_right _ _, attackResult_defender_health s atk m, ?_, ?_,
    attackResult_flags s atk m⟩
  · rw [attackResult_cooldowns, writeCd_self]
  · rw [attackResult_attacker]

/-- Witness for C1 on the spec scenario: A (defense 2, Punch damage 8)
attacks B (health 20, defense 3); the damage is max(8-3,0) = 5 and the
health of B becomes 15. -/
theorem apply_move_plain_attack_damage_witness :
    (((sAB.char Side.player).player_moves)[0]? = some punchMove) ∧
    (¬ sAB.cooldowns (sAB.char Side.player).name punchMove.name > 0) ∧
    (sAB.active_defenses (sAB.char Side.player.other).name = false) ∧
    (¬ punchMove.isDefense) ∧
    (∃ s1, apply_move sAB Side.player 0 = some (s1, true) ∧
      0 ≤ max (punchMove.damage - (sAB.char Side.player.other).defense) 0 ∧
      (s1.char Side.player.other).health =
        (sAB.char Side.player.other).health -
          max (punchMove.damage - (sAB.char Side.player.other).defense) 0 ∧
      s1.cooldowns (sAB.char Side.player).name punchMove.name =
        punchMove.cooldownVal ∧
      (s1.char Side.player).health = (sAB.char Side.player).health ∧
      s1.active_defenses = sAB.active_defenses) ∧
    ((apply_move sAB Side.player 0).map
        (fun p => ((p.1.char Side.cpu).health, p.2)) = some (15, true)) :=
  ⟨by decide, by decide, by decide, by decide,
    apply_move_plain_attack_damage sAB Side.player 0 punchMove
      (by decide) (by decide) (by decide) (by decide),
    by decide⟩

/-- C2: attempting a move whose remaining cooldown is positive is
refused: `apply_move` reports failure and returns the state literally
unchanged, so both health values, both defense flags and every cooldown
entry (the attempted one included) are exactly as before the attempt. -/
theorem apply_move_on_cooldown_no_change (s : GameState) (atk : Side)
    (i : Nat) (m : Move) (hm : ((s.char atk).player_moves)[i]? = some m)
    (hcd : s.cooldowns (s.char atk).name m.name > 0) :
    apply_move s atk i = some (s, false) ∧
    ∀ s1 b, apply_move s atk i = some (s1, b) →
      s1.player.health = s.player.health ∧
      s1.cpu.health = s.cpu.health ∧
      s1.active_defenses = s.active_defenses ∧
      (∀ c mo, s1.cooldowns c mo = s.cooldowns c mo) := by
  have h := apply_move_eq_refused s atk i m hm hcd
  refine ⟨h, ?_⟩
  intro s1 b hb
  rw [h] at hb
  have h2 : (s, false) = (s1, b) := Option.some.inj hb
  have h3 : s = s1 := congrArg Prod.fst h2
  subst h3
  exact ⟨rfl, rfl, rfl, fun c mo => rfl⟩

/-- Witness for C2 on the scenario of the spec: the Punch of A has
remaining cooldown 1; the attempt is refused, nothing changes, and the
remaining cooldown is still 1. -/
theorem apply_move_on_cooldown_no_change_witness :
    (((sCd.char Side.player).player_moves)[0]? = some punchMove) ∧
    (sCd.cooldowns (sCd.char Side.player).name punchMove.name > 0) ∧
    (apply_move sCd Side.player 0 = some (sCd, false) ∧
      ∀ s1 b, apply_move sCd Side.player 0 = some (s1, b) →
        s1.player.health = sCd.player.health ∧
        s1.cpu.health = sCd.cpu.health ∧
        s1.active_defenses = sCd.active_defenses ∧
        (∀ c mo, s1.cooldowns c mo = sCd.cooldowns c mo)) ∧
    ((apply_move sCd Side.player 0).map
        (fun p => (p.1.cooldowns charA.name punchMove.name, p.2)) =
      some (1, false)) :=
  ⟨by decide, by decide,
    apply_move_on_cooldown_no_change sCd Side.player 0 punchMove
      (by decide) (by decide),
    by decide⟩

/-- C3: an active defense is one-shot. Executing a block/dodge move (off
cooldown, with the flag of the defender clear) sets the flag of the
actor and deals no damage to anyone; an incoming attack against a set
flag is nullified by the very same execution that resets the flag to
false; and once the flag is clear a further plain attack is resolved
with full damage, so a single activation can never nullify two
attacks. -/
theorem active_defense_one_shot :
    (∀ (s : GameState) (atk : Side) (i : Nat) (m : Move),
      ((s.char atk).player_moves)[i]? = some m →
      ¬ s.cooldowns (s.char atk).name m.name > 0 →
      s.active_defenses (s.char atk.other).name = false →
      m.isDefense →
      ∃ s1, apply_move s atk i = some (s1, true) ∧
        s1.active_defenses (s.char atk).name = true ∧
        s1.player.health = s.player.health ∧
        s1.cpu.health = s.cpu.health) ∧
    (∀ (s : GameState) (atk : Side) (i : Nat) (m : Move),
      ((s.char atk).player_moves)[i]? = some m →
      ¬ s.cooldowns (s.char atk).name m.name > 0 →
      s.active_defenses (s.char atk.other).name = true →
      ∃ s1, apply_move s atk i = some (s1, true) ∧
        s1.active_defenses (s.char atk.other).name = false ∧
        s1.player.health = s.player.health ∧
        s1.cpu.health = s.cpu.health) ∧
    (∀ (s : GameState) (atk : Side) (i : Nat) (m : Move),
      ((s.char atk).player_moves)[i]? = some m →
      ¬ s.cooldowns (s.char atk).name m.name > 0 →
      s.active_defenses (s.char atk.other).name = false →
      ¬ m.isDefense →
      ∃ s1, apply_move s atk i = some (s1, true) ∧
        (s1.char atk.other).health =
          (s.char atk.other).health -
            max (m.damage - (s.char atk.other).defense) 0) := by
  refine ⟨?_, ?_, ?_⟩
  · intro s atk i m hm hcd hdef heff
    exact ⟨_, apply_move_eq_defense s atk i m hm hcd hdef heff,
      writeFlag_self _ _ _, rfl, rfl⟩
  · intro s atk i m hm hcd hdef
    exact ⟨_, apply_move_eq_nullify s atk i m hm hcd hdef,
      writeFlag_self _ _ _, rfl, rfl⟩
  · intro s atk i m hm hcd hdef heff
    exact ⟨_, apply_move_eq_attack s atk i m hm hcd hdef heff,
      attackResult_defender_health s atk m⟩

/-- Witness for C3: D activates the dodge (flag set, no damage), and in
a state where the flag of D is set an attack of B is nullified while
the flag resets to false. -/
theorem active_defense_one_shot_witness :
    (∃ s1, apply_move sDodge Side.player 0 = some (s1, true) ∧
      s1.active_defenses (sDodge.char Side.player).name = true ∧
      s1.player.health = sDodge.player.health ∧
      s1.cpu.health = sDodge.cpu.health) ∧
    (∃ s1, apply_move sFlag Side.cpu 0 = some (s1, true) ∧
      s1.active_defenses (sFlag.char Side.cpu.other).name = false ∧
      s1.player.health = sFlag.player.health ∧
      s1.cpu.health = sFlag.cpu.health) :=
  ⟨active_defense_one_shot.1 sDodge Side.player 0 dodgeMove
      (by decide) (by decide) (by decide) (by decide),
    active_defense_one_shot.2.1 sFlag Side.cpu 0 pokeMove
      (by decide) (by decide) (by decide)⟩

/-- C4: any off-cooldown move executed while the defender carries an
active defense flag — a block/dodge move of the attacker included — is
nullified: the flag of the defender is cleared, the cooldown entry of
the attacker for this move becomes the configured value, the defender
health is unchanged, and the defense flag of the attacker is left
exactly as it was (in particular this execution does not set it). The
combatants are assumed to carry distinct names, since the tables of the
source are keyed by character name. -/
theorem apply_move_nullified_attack (s : GameState) (atk : Side) (i : Nat)
    (m : Move) (hm : ((s.char atk).player_moves)[i]? = some m)
    (hcd : ¬ s.cooldowns (s.char atk).name m.name > 0)
    (hdef : s.active_defenses (s.char atk.other).name = true)
    (hn : (s.char atk).name ≠ (s.char atk.other).name) :
    ∃ s1, apply_move s atk i = some (s1, true) ∧
      s1.active_defenses (s.char atk.other).name = false ∧
      s1.cooldowns (s.char atk).name m.name = m.cooldownVal ∧
      (s1.char atk.other).health = (s.char atk.other).health ∧
      s1.active_defenses (s.char atk).name =
        s.active_defenses (s.char atk).name := by
  refine ⟨_, apply_move_eq_nullify s atk i m hm hcd hdef,
    writeFlag_self _ _ _, writeCd_self _ _ _ _, ?_,
    writeFlag_ne _ _ _ _ hn⟩
  cases atk <;> rfl

/-- Witness for C4: B uses its dodge-free Poke against D whose defense
flag is set; the attack is nullified, the flag of D clears, the Poke
cooldown entry of B becomes its configured value 0, and the flag of B
stays clear. -/
theorem apply_move_nullified_attack_witness :
    (sFlag.active_defenses (sFlag.char Side.cpu.other).name = true) ∧
    ((sFlag.char Side.cpu).name ≠ (sFlag.char Side.cpu.other).name) ∧
    (∃ s1, apply_move sFlag Side.cpu 0 = some (s1, true) ∧
      s1.active_defenses (sFlag.char Side.cpu.other).name = false ∧
      s1.cooldowns (sFlag.char Side.cpu).name pokeMove.name =
        pokeMove.cooldownVal ∧
      (s1.char Side.cpu.other).health = (sFlag.char Side.cpu.other).health ∧
      s1.active_defenses (sFlag.char Side.cpu).name =
        sFlag.active_defenses (sFlag.char Side.cpu).name) :=
  ⟨by decide, by decide,
    apply_move_nullified_attack sFlag Side.cpu 0 pokeMove
      (by decide) (by decide) (by decide) (by decide)⟩

/-- C5: after the loop exits, the report follows "lower final health
loses": the player is reported as the loser iff the final player health
is strictly below the final CPU health. The comparison is over the full
integers, hence still correct when the lethal blow drove the health of
the loser negative. -/
theorem play_report_lower_health_loses (pch cch : Nat → Nat) (fuel : Nat)
    (s : GameState) :
    (play pch cch fuel s).2.2 = true ↔
      (play pch cch fuel s).1.gs.player.health <
        (play pch cch fuel s).1.gs.cpu.health := by
  simp [play, playerLostReport, game_lt]

/-- C10: tie-breaking at the end of `play`: when the two final health
values are equal the strict comparison of `__lt__` fails, so the losing
message is not printed and the player is reported as the winner. -/
theorem play_tie_reports_player_win (pch cch : Nat → Nat) (fuel : Nat)
    (s : GameState)
    (h : (play pch cch fuel s).1.gs.player.health =
      (play pch cch fuel s).1.gs.cpu.health) :
    (play pch cch fuel s).2.2 = false := by
  simp [play, playerLostReport, game_lt] at h ⊢
  omega

/-- Witness for C10: equal final health values, player reported winner. -/
theorem play_tie_reports_player_win_witness :
    ((play (fun _ => 0) (fun _ => 0) 0 sTie).1.gs.player.health =
      (play (fun _ => 0) (fun _ => 0) 0 sTie).1.gs.cpu.health) ∧
    (play (fun _ => 0) (fun _ => 0) 0 sTie).2.2 = false :=
  ⟨by decide, play_tie_reports_player_win (fun _ => 0) (fun _ => 0) 0 sTie
    (by decide)⟩

/-- Counterexample for C6: starting from a live state with fuel 10 the
loop stops after exactly one executed half-turn — the half of the
player — because the terminal condition is re-checked immediately and
the CPU health is already below zero. The exit happens with parity 1,
in the middle of a turn pair, refuting that the condition is checked
only between full turn pairs. -/
theorem play_exit_mid_pair_cex :
    battleLive { gs := reset_cooldowns s6, turn := 0 } = true ∧
    (play (fun _ => 0) (fun _ => 0) 10 s6).2.1 = 1 ∧
    (play (fun _ => 0) (fun _ => 0) 10 s6).1.turn = 1 ∧
    battleLive (play (fun _ => 0) (fun _ => 0) 10 s6).1 = false ∧
    (play (fun _ => 0) (fun _ => 0) 10 s6).1.gs.cpu.health ≤ 0 := by
  decide

/-- C6 amended: the loop strictly alternates (the parity flips by
`1 - turn` after every iteration), each iteration runs `take_turn` for
the side given by the parity followed by `reduce_cooldowns`, and the
terminal condition (either health no longer positive) is re-evaluated
before every single half-turn — not only between full pairs — so the
loop exits as soon as the condition fails, possibly right after the
half of the player. -/
theorem play_checks_condition_each_iteration (pch cch : Nat → Nat) :
    (∀ fuel k ls, battleLive ls = false →
      playLoop pch cch fuel k ls = (ls, 0)) ∧
    (∀ fuel k ls, battleLive ls = true →
      playLoop pch cch (fuel + 1) k ls =
        ((playLoop pch cch fuel (k + 1) (playStep pch cch k ls)).1,
         (playLoop pch cch fuel (k + 1) (playStep pch cch k ls)).2 + 1)) ∧
    (∀ k ls, (playStep pch cch k ls).turn = 1 - ls.turn ∧
      (playStep pch cch k ls).gs = reduce_cooldowns
        (if ls.turn = 0 then take_turn ls.gs Side.player (pch k)
         else take_turn ls.gs Side.cpu (cpuSelect ls.gs.cpu (cch k)))) := by
  refine ⟨?_, ?_, ?_⟩
  · intro fuel k ls h
    cases fuel with
    | zero => rfl
    | succ n => simp [playLoop, h]
  · intro fuel k ls h
    simp [playLoop, h]
  · intro k ls
    exact ⟨rfl, rfl⟩

/-- Witness for the amended C6: at a dead state in the middle of a pair
the loop refuses to run any further half-turn. -/
theorem play_checks_condition_each_iteration_witness :
    battleLive lsDead = false ∧
    playLoop (fun _ => 0) (fun _ => 0) 5 0 lsDead = (lsDead, 0) :=
  ⟨by decide,
    (play_checks_condition_each_iteration (fun _ => 0) (fun _ => 0)).1
      5 0 lsDead (by decide)⟩

theorem reduceFor_nonpos (c : Character) (f : String → String → Int)
    (x y : String) (h : ¬ f x y > 0) : reduceFor c f x y = f x y := by
  unfold reduceFor
  rw [if_neg]
  rintro ⟨_, _, hpos⟩
  exact h hpos

theorem reduceFor_ne_name (c : Character) (f : String → String → Int)
    (x y : String) (h : x ≠ c.name) : reduceFor c f x y = f x y := by
  unfold reduceFor
  rw [if_neg]
  rintro ⟨h1, _, _⟩
  exact h h1

theorem reduceFor_dec (c : Character) (f : String → String → Int)
    (y : String) (hy : y ∈ c.moveNames) (hpos : f c.name y > 0) :
    reduceFor c f c.name y = f c.name y - 1 := by
  unfold reduceFor
  rw [if_pos ⟨rfl, hy, hpos⟩]

theorem reduce_char (s0 : GameState) (sd : Side) :
    (reduce_cooldowns s0).char sd = s0.char sd := by
  cases sd <;> rfl

theorem char_update_tables (s0 : GameState) (A : String → Bool)
    (C : String → String → Int) (sd : Side) :
    (({ s0 with active_defenses := A, cooldowns := C } : GameState).char sd)
      = s0.char sd := by
  cases sd <;> rfl

theorem reduce_cd_nonpos (s0 : GameState) (x y : String)
    (h : ¬ s0.cooldowns x y > 0) :
    (reduce_cooldowns s0).cooldowns x y = s0.cooldowns x y := by
  have hinner : reduceFor s0.player s0.cooldowns x y = s0.cooldowns x y :=
    reduceFor_nonpos _ _ _ _ h
  calc (reduce_cooldowns s0).cooldowns x y
      = reduceFor s0.cpu (reduceFor s0.player s0.cooldowns) x y := rfl
    _ = reduceFor s0.player s0.cooldowns x y :=
        reduceFor_nonpos _ _ _ _ (by rw [hinner]; exact h)
    _ = s0.cooldowns x y := hinner

theorem reduce_cd_attacker (s0 : GameState) (atk : Side) (y : String)
    (hy : y ∈ (s0.char atk).moveNames)
    (hn : (s0.char atk).name ≠ (s0.char atk.other).name)
    (hpos : s0.cooldowns (s0.char atk).name y > 0) :
    (reduce_cooldowns s0).cooldowns (s0.char atk).name y =
      s0.cooldowns (s0.char atk).name y - 1 := by
  cases atk with
  | player =>
    calc (reduce_cooldowns s0).cooldowns s0.player.name y
        = reduceFor s0.cpu (reduceFor s0.player s0.cooldowns)
            s0.player.name y := rfl
      _ = reduceFor s0.player s0.cooldowns s0.player.name y :=
          reduceFor_ne_name _ _ _ _ hn
      _ = s0.cooldowns s0.player.name y - 1 := reduceFor_dec _ _ _ hy hpos
  | cpu =>
    have hne : s0.cpu.name ≠ s0.player.name := hn
    have hinner : reduceFor s0.player s0.cooldowns s0.cpu.name y =
        s0.cooldowns s0.cpu.name y := reduceFor_ne_name _ _ _ _ hne
    calc (reduce_cooldowns s0).cooldowns s0.cpu.name y
        = reduceFor s0.cpu (reduceFor s0.player s0.cooldowns)
            s0.cpu.name y := rfl
      _ = reduceFor s0.player s0.cooldowns s0.cpu.name y - 1 :=
          reduceFor_dec _ _ _ hy (by rw [hinner]; exact hpos)
      _ = s0.cooldowns s0.cpu.name y - 1 := by rw [hinner]

theorem reduce_then_nullify (s0 : GameState) (atk : Side) (j : Nat)
    (m2 : Move) (y : String)
    (hm2 : ((s0.char atk.other).player_moves)[j]? = some m2)
    (hflag : s0.active_defenses (s0.char atk).name = true)
    (hoff2 : s0.cooldowns (s0.char atk.other).name m2.name ≤ 0)
    (hy : y ∈ (s0.char atk).moveNames)
    (hpos : s0.cooldowns (s0.char atk).name y > 0)
    (hn : (s0.char atk).name ≠ (s0.char atk.other).name) :
    ∃ s3, apply_move (reduce_cooldowns s0) atk.other j = some (s3, true) ∧
      (s3.char atk).health = (s0.char atk).health ∧
      s3.active_defenses (s0.char atk).name = false ∧
      s3.cooldowns (s0.char atk).name y =
        s0.cooldowns (s0.char atk).name y - 1 := by
  have hm2r : (((reduce_cooldowns s0).char atk.other).player_moves)[j]? =
      some m2 := by
    rw [reduce_char]; exact hm2
  have hval : (reduce_cooldowns s0).cooldowns (s0.char atk.other).name
      m2.name = s0.cooldowns (s0.char atk.other).name m2.name :=
    reduce_cd_nonpos s0 _ _ (by omega)
  have hcdr : ¬ (reduce_cooldowns s0).cooldowns
      (((reduce_cooldowns s0).char atk.other).name) m2.name > 0 := by
    rw [reduce_char, hval]; omega
  have hflagr : (reduce_cooldowns s0).active_defenses
      (((reduce_cooldowns s0).char (atk.other).other).name) = true := by
    rw [side_other_other, reduce_char]
    exact hflag
  have heq := apply_move_eq_nullify (reduce_cooldowns s0) atk.other j m2
    hm2r hcdr hflagr
  have hX : ((reduce_cooldowns s0).char (atk.other).other).name =
      (s0.char atk).name := by
    rw [side_other_other, reduce_char]
  have hY : ((reduce_cooldowns s0).char atk.other).name =
      (s0.char atk.other).name := by
    rw [reduce_char]
  refine ⟨_, heq, ?_, ?_, ?_⟩
  · rw [char_update_tables, reduce_char]
  · dsimp only
    rw [hX, writeFlag_self]
  · dsimp only
    rw [writeCd_ne]
    · exact reduce_cd_attacker s0 atk y hy hn hpos
    · rintro ⟨h1, _⟩
      rw [hY] at h1
      exact hn h1

/-- Counterexample for C7: in the dodge scenario (dodge with configured
cooldown 2, opponent attacks on the next turn, operations in exactly the
order of the loop of `play`) the attack is nullified, the flag of the
defender clears and its health is unchanged, but the remaining cooldown
of the dodge at that point is 1, not 2: the `reduce_cooldowns` call that
ended the dodge turn already decremented it. -/
theorem dodge_cooldown_not_two_cex :
    s7a.cooldowns charA7.name dodgeMove.name = 2 ∧
    s7c.player.health = 20 ∧
    s7c.active_defenses charA7.name = false ∧
    s7c.cooldowns charA7.name dodgeMove.name = 1 ∧
    ¬ s7c.cooldowns charA7.name dodgeMove.name = 2 := by
  decide

/-- C7 amended: if a character uses a block/dodge move with configured
cooldown 2 and the opponent attacks on the next turn, the attack is
nullified, the defender health is unchanged and the defense flag is
cleared, and the remaining cooldown of the dodge move at that point is
1 — it was set to 2 and the intervening `reduce_cooldowns` decremented
it once. -/
theorem dodge_then_attack_nullified (s : GameState) (atk : Side)
    (i j : Nat) (m m2 : Move)
    (hm : ((s.char atk).player_moves)[i]? = some m)
    (heff : m.isDefense) (hcd2 : m.cooldownVal = 2)
    (hoff : ¬ s.cooldowns (s.char atk).name m.name > 0)
    (hdf : s.active_defenses (s.char atk.other).name = false)
    (hm2 : ((s.char atk.other).player_moves)[j]? = some m2)
    (hoff2 : s.cooldowns (s.char atk.other).name m2.name ≤ 0)
    (hn : (s.char atk).name ≠ (s.char atk.other).name) :
    ∃ s3, apply_move (reduce_cooldowns (take_turn s atk i)) atk.other j =
        some (s3, true) ∧
      (s3.char atk).health = (s.char atk).health ∧
      s3.active_defenses (s.char atk).name = false ∧
      s3.cooldowns (s.char atk).name m.name = 1 := by
  have e1 := apply_move_eq_defense s atk i m hm hoff hdf heff
  rw [take_turn_eq s atk i _ true e1]
  have hchar := char_update_tables s
    (writeFlag s.active_defenses (s.char atk).name true)
    (writeCd s.cooldowns (s.char atk).name m.name m.cooldownVal)
  obtain ⟨s3, he, hh, hf, hc⟩ := reduce_then_nullify _ atk j m2 m.name
    (by rw [hchar]; exact hm2)
    (by rw [hchar]; dsimp only; rw [writeFlag_self])
    (by rw [hchar]; dsimp only
        rw [writeCd_ne]
        · exact hoff2
        · rintro ⟨h1, _⟩
          exact hn h1.symm)
    (by rw [hchar]
        exact List.mem_map_of_mem _ (List.getElem?_mem hm))
    (by rw [hchar]; dsimp only
        rw [writeCd_self, hcd2]
        omega)
    (by rw [hchar, hchar]; exact hn)
  rw [hchar] at hh hf hc
  refine ⟨s3, he, hh, hf, ?_⟩
  rw [hc]
  dsimp only
  rw [writeCd_self, hcd2]
  decide

/-- Witness for the amended C7 on the scenario data: A7 dodges, B7
attacks next turn; the attack is nullified, the health of A7 is
unchanged, its flag clears, and the dodge cooldown reads 1. -/
theorem dodge_then_attack_nullified_witness :
    (dodgeMove.isDefense ∧ dodgeMove.cooldownVal = 2) ∧
    (∃ s3, apply_move (reduce_cooldowns (take_turn s7 Side.player 0))
        Side.player.other 0 = some (s3, true) ∧
      (s3.char Side.player).health = (s7.char Side.player).health ∧
      s3.active_defenses (s7.char Side.player).name = false ∧
      s3.cooldowns (s7.char Side.player).name dodgeMove.name = 1) :=
  ⟨⟨by decide, by decide⟩,
    dodge_then_attack_nullified s7 Side.player 0 0 dodgeMove punchMove
      (by decide) (by decide) (by decide) (by decide) (by decide)
      (by decide) (by decide) (by decide)⟩

theorem reduceFor_not_fire (c : Character) (f : String → String → Int)
    (x y : String)
    (h : ¬ (x = c.name ∧ y ∈ c.moveNames ∧ f x y > 0)) :
    reduceFor c f x y = f x y := by
  unfold reduceFor
  rw [if_neg h]

theorem reduceFor_nonneg (c : Character) (f : String → String → Int)
    (x y : String) (h : 0 ≤ f x y) : 0 ≤ reduceFor c f x y := by
  unfold reduceFor
  split
  · rename_i hcond
    obtain ⟨_, _, hpos⟩ := hcond
    omega
  · exact h

theorem reduce_cdNonneg (s0 : GameState) (hs : cdNonneg s0) :
    cdNonneg (reduce_cooldowns s0) := by
  intro c m
  exact reduceFor_nonneg _ _ _ _ (reduceFor_nonneg _ _ _ _ (hs c m))

theorem writeCd_nonneg (f : String → String → Int) (c m : String) (v : Int)
    (x y : String) (hv : 0 ≤ v) (hf : 0 ≤ f x y) :
    0 ≤ writeCd f c m v x y := by
  unfold writeCd
  split
  · exact hv
  · exact hf

theorem take_turn_eq_none (s : GameState) (atk : Side) (i : Nat)
    (h : apply_move s atk i = none) : take_turn s atk i = s := by
  simp only [take_turn, h]

theorem take_turn_cdNonneg (s : GameState) (atk : Side) (i : Nat)
    (hwf : movesWF (s.char atk)) (hs : cdNonneg s) :
    cdNonneg (take_turn s atk i) := by
  cases hm : ((s.char atk).player_moves)[i]? with
  | none =>
    rw [take_turn_eq_none s atk i (apply_move_eq_none s atk i hm)]
    exact hs
  | some m =>
    have hv : 0 ≤ m.cooldownVal := hwf m (List.getElem?_mem hm)
    by_cases hcd : s.cooldowns (s.char atk).name m.name > 0
    · rw [take_turn_eq s atk i s false (apply_move_eq_refused s atk i m hm hcd)]
      exact hs
    · by_cases hdef : s.active_defenses (s.char atk.other).name = true
      · rw [take_turn_eq s atk i _ true
          (apply_move_eq_nullify s atk i m hm hcd hdef)]
        intro c mo
        exact writeCd_nonneg _ _ _ _ _ _ hv (hs c mo)
      · have hdef2 : s.active_defenses (s.char atk.other).name = false := by
          revert hdef
          cases s.active_defenses (s.char atk.other).name <;> simp
        by_cases heff : m.isDefense
        · rw [take_turn_eq s atk i _ true
            (apply_move_eq_defense s atk i m hm hcd hdef2 heff)]
          intro c mo
          exact writeCd_nonneg _ _ _ _ _ _ hv (hs c mo)
        · rw [take_turn_eq s atk i _ true
            (apply_move_eq_attack s atk i m hm hcd hdef2 heff)]
          intro c mo
          rw [attackResult_cooldowns]
          exact writeCd_nonneg _ _ _ _ _ _ hv (hs c mo)

theorem take_turn_shape (s : GameState) (atk : Side) (i : Nat) (sd : Side) :
    ((take_turn s atk i).char sd).name = (s.char sd).name ∧
    ((take_turn s atk i).char sd).player_moves =
      (s.char sd).player_moves := by
  cases hm : ((s.char atk).player_moves)[i]? with
  | none =>
    rw [take_turn_eq_none s atk i (apply_move_eq_none s atk i hm)]
    exact ⟨rfl, rfl⟩
  | some m =>
    by_cases hcd : s.cooldowns (s.char atk).name m.name > 0
    · rw [take_turn_eq s atk i s false (apply_move_eq_refused s atk i m hm hcd)]
      exact ⟨rfl, rfl⟩
    · by_cases hdef : s.active_defenses (s.char atk.other).name = true
      · rw [take_turn_eq s atk i _ true
          (apply_move_eq_nullify s atk i m hm hcd hdef)]
        exact ⟨by rw [char_update_tables], by rw [char_update_tables]⟩
      · have hdef2 : s.active_defenses (s.char atk.other).name = false := by
          revert hdef
          cases s.active_defenses (s.char atk.other).name <;> simp
        by_cases heff : m.isDefense
        · rw [take_turn_eq s atk i _ true
            (apply_move_eq_defense s atk i m hm hcd hdef2 heff)]
          exact ⟨by rw [char_update_tables], by rw [char_update_tables]⟩
        · rw [take_turn_eq s atk i _ true
            (apply_move_eq_attack s atk i m hm hcd hdef2 heff)]
          exact ⟨(attackResult_char_shape s atk m sd).1,
            (attackResult_char_shape s atk m sd).2.1⟩

theorem movesWF_of_moves_eq (c c2 : Character)
    (h : c2.player_moves = c.player_moves) (hwf : movesWF c) :
    movesWF c2 := by
  intro m hm
  exact hwf m (h ▸ hm)

theorem playStep_cdNonneg (pch cch : Nat → Nat) (k : Nat) (ls : LoopState)
    (hwfp : movesWF ls.gs.player) (hwfc : movesWF ls.gs.cpu)
    (hs : cdNonneg ls.gs) : cdNonneg (playStep pch cch k ls).gs := by
  unfold playStep
  dsimp only
  split
  · exact reduce_cdNonneg _ (take_turn_cdNonneg _ _ _ hwfp hs)
  · exact reduce_cdNonneg _ (take_turn_cdNonneg _ _ _ hwfc hs)

theorem playStep_shape (pch cch : Nat → Nat) (k : Nat) (ls : LoopState)
    (sd : Side) :
    (((playStep pch cch k ls).gs).char sd).name =
      ((ls.gs).char sd).name ∧
    (((playStep pch cch k ls).gs).char sd).player_moves =
      ((ls.gs).char sd).player_moves := by
  unfold playStep
  dsimp only
  split
  · rw [reduce_char]
    exact take_turn_shape _ _ _ sd
  · rw [reduce_char]
    exact take_turn_shape _ _ _ sd

theorem playLoop_cdNonneg (pch cch : Nat → Nat) (fuel k : Nat)
    (ls : LoopState) (hwfp : movesWF ls.gs.player)
    (hwfc : movesWF ls.gs.cpu) (hs : cdNonneg ls.gs) :
    cdNonneg ((playLoop pch cch fuel k ls).1.gs) := by
  induction fuel generalizing k ls with
  | zero => exact hs
  | succ n ih =>
    unfold playLoop
    dsimp only
    split
    · exact ih (k + 1) (playStep pch cch k ls)
        (movesWF_of_moves_eq _ _ (playStep_shape pch cch k ls Side.player).2 hwfp)
        (movesWF_of_moves_eq _ _ (playStep_shape pch cch k ls Side.cpu).2 hwfc)
        (playStep_cdNonneg pch cch k ls hwfp hwfc hs)
    · exact hs

theorem reduce_cd_step (s0 : GameState) (c m : String)
    (hn : s0.player.name ≠ s0.cpu.name) :
    (reduce_cooldowns s0).cooldowns c m = s0.cooldowns c m ∨
      (s0.cooldowns c m > 0 ∧
        (reduce_cooldowns s0).cooldowns c m = s0.cooldowns c m - 1) := by
  by_cases hp : c = s0.player.name ∧ m ∈ s0.player.moveNames ∧
      s0.cooldowns c m > 0
  · obtain ⟨hc, hmem, hpos⟩ := hp
    subst hc
    right
    refine ⟨hpos, ?_⟩
    calc (reduce_cooldowns s0).cooldowns s0.player.name m
        = reduceFor s0.cpu (reduceFor s0.player s0.cooldowns)
            s0.player.name m := rfl
      _ = reduceFor s0.player s0.cooldowns s0.player.name m :=
          reduceFor_ne_name _ _ _ _ hn
      _ = s0.cooldowns s0.player.name m - 1 :=
          reduceFor_dec _ _ _ hmem hpos
  · have hinner : reduceFor s0.player s0.cooldowns c m =
        s0.cooldowns c m := reduceFor_not_fire _ _ _ _ hp
    by_cases hq : c = s0.cpu.name ∧ m ∈ s0.cpu.moveNames ∧
        s0.cooldowns c m > 0
    · obtain ⟨hc, hmem, hpos⟩ := hq
      subst hc
      right
      refine ⟨hpos, ?_⟩
      calc (reduce_cooldowns s0).cooldowns s0.cpu.name m
          = reduceFor s0.cpu (reduceFor s0.player s0.cooldowns)
              s0.cpu.name m := rfl
        _ = reduceFor s0.player s0.cooldowns s0.cpu.name m - 1 :=
            reduceFor_dec _ _ _ hmem (by rw [hinner]; exact hpos)
        _ = s0.cooldowns s0.cpu.name m - 1 := by rw [hinner]
    · left
      calc (reduce_cooldowns s0).cooldowns c m
          = reduceFor s0.cpu (reduceFor s0.player s0.cooldowns) c m := rfl
        _ = reduceFor s0.player s0.cooldowns c m :=
            reduceFor_not_fire _ _ _ _ (by
              rintro ⟨h1, h2, h3⟩
              rw [hinner] at h3
              exact hq ⟨h1, h2, h3⟩)
        _ = s0.cooldowns c m := hinner

/-- C8: cooldown entries are never negative: the reset at battle start
makes every entry 0; one `reduce_cooldowns` pass decrements an entry by
exactly 1 when it is positive and leaves it unchanged otherwise (so it
never drives an entry below 0); and along a whole `play` run every
entry stays nonnegative, provided the configured cooldowns of the data
are nonnegative turn counts. -/
theorem cooldown_entries_nonnegative :
    (∀ (s : GameState) (c m : String),
      (reset_cooldowns s).cooldowns c m = 0) ∧
    (∀ (s : GameState) (c m : String), s.player.name ≠ s.cpu.name →
      (reduce_cooldowns s).cooldowns c m = s.cooldowns c m ∨
        (s.cooldowns c m > 0 ∧
          (reduce_cooldowns s).cooldowns c m = s.cooldowns c m - 1)) ∧
    (∀ (pch cch : Nat → Nat) (fuel : Nat) (s : GameState),
      movesWF s.player → movesWF s.cpu →
      ∀ (c m : String), 0 ≤ (play pch cch fuel s).1.gs.cooldowns c m) := by
  refine ⟨fun s c m => rfl, fun s c m hn => reduce_cd_step s c m hn, ?_⟩
  intro pch cch fuel s hp hc c m
  exact playLoop_cdNonneg pch cch fuel 0
    { gs := reset_cooldowns s, turn := 0 } hp hc
    (fun c2 m2 => le_refl 0) c m

/-- Witness for C8: the reset entry is 0; the advance step on the state
with Punch cooldown 1 decrements it; after a short `play` run the Punch
entry is still nonnegative. -/
theorem cooldown_entries_nonnegative_witness :
    (reset_cooldowns sAB).cooldowns charA.name punchMove.name = 0 ∧
    ((reduce_cooldowns sCd).cooldowns charA.name punchMove.name =
        sCd.cooldowns charA.name punchMove.name ∨
      (sCd.cooldowns charA.name punchMove.name > 0 ∧
        (reduce_cooldowns sCd).cooldowns charA.name punchMove.name =
          sCd.cooldowns charA.name punchMove.name - 1)) ∧
    0 ≤ (play (fun _ => 0) (fun _ => 0) 6 sAB).1.gs.cooldowns
      charA.name punchMove.name :=
  ⟨cooldown_entries_nonnegative.1 sAB charA.name punchMove.name,
    cooldown_entries_nonnegative.2.1 sCd charA.name punchMove.name
      (by decide),
    cooldown_entries_nonnegative.2.2 (fun _ => 0) (fun _ => 0) 6 sAB
      (by decide) (by decide) charA.name punchMove.name⟩

/-- C9: the CPU move selection draws from the full index set with no
cooldown filtering: every selected index is in range, every index below
the move count is reachable, the oracle hits each index exactly once
per period of the move count (so a uniform oracle yields a uniform
index), the selection depends only on the length of the move list —
never on the cooldown table — and when the selected move is on cooldown
the engine refuses it and the turn is wasted with the state
unchanged. -/
theorem cpu_move_selection_uniform (s : GameState) (i : Nat)
    (hi : i < s.cpu.player_moves.length) :
    (∀ r, cpuSelect s.cpu r < s.cpu.player_moves.length) ∧
    cpuSelect s.cpu i = i ∧
    (∀ r1 r2, r1 < s.cpu.player_moves.length →
      r2 < s.cpu.player_moves.length →
      cpuSelect s.cpu r1 = cpuSelect s.cpu r2 → r1 = r2) ∧
    (∀ c2 : Character,
      c2.player_moves.length = s.cpu.player_moves.length →
      ∀ r, cpuSelect c2 r = cpuSelect s.cpu r) ∧
    (∀ r m, ((s.cpu.player_moves)[cpuSelect s.cpu r]? = some m) →
      s.cooldowns s.cpu.name m.name > 0 →
      take_turn s Side.cpu (cpuSelect s.cpu r) = s) := by
  have hpos : 0 < s.cpu.player_moves.length :=
    Nat.lt_of_le_of_lt (Nat.zero_le i) hi
  refine ⟨?_, ?_, ?_, ?_, ?_⟩
  · intro r
    exact Nat.mod_lt r hpos
  · exact Nat.mod_eq_of_lt hi
  · intro r1 r2 h1 h2 h
    rwa [cpuSelect, cpuSelect, Nat.mod_eq_of_lt h1, Nat.mod_eq_of_lt h2] at h
  · intro c2 hlen r
    unfold cpuSelect
    rw [hlen]
  · intro r m hm hcd
    exact take_turn_eq s Side.cpu _ s false
      (apply_move_eq_refused s Side.cpu _ m hm hcd)

/-- Witness for C9: the selection is in range and reaches index 0, and
the on-cooldown selection wastes the turn without any state change. -/
theorem cpu_move_selection_uniform_witness :
    cpuSelect sCpuCd.cpu 0 = 0 ∧
    cpuSelect sCpuCd.cpu 5 < sCpuCd.cpu.player_moves.length ∧
    take_turn sCpuCd Side.cpu (cpuSelect sCpuCd.cpu 5) = sCpuCd :=
  ⟨(cpu_move_selection_uniform sCpuCd 0 (by decide)).2.1,
    (cpu_move_selection_uniform sCpuCd 0 (by decide)).1 5,
    (cpu_move_selection_uniform sCpuCd 0 (by decide)).2.2.2.2 5 pokeMove
      (by decide) (by decide)⟩

end Fight
